import Mathlib

/-!
Verification development for the Astro-Interact backend
(`backend/main.py`): a shallow embedding of the multi-chart horoscope
engine — chart construction, house bucketing, aspect matching, and the
orchestrator's pairwise aspect matrix — with theorems about its
behaviour.

Angles are modelled as rationals (`ℚ`).  Python dictionaries keyed by
strings are modelled as insertion-ordered association lists
(`List (String × _)`); Python exceptions are modelled by `Option`
(`none` means the computation raises and the request aborts).
External libraries (the Swiss Ephemeris wrapper `swisseph` and the
geocoder) are modelled as an explicit `Providers` record of functions.
-/

attribute [local semireducible] Rat.add Rat.sub Rat.mul Rat.inv Rat.ofScientific

/-- Python list indexing `xs[i]`: negative indices count from the end;
out-of-range access raises (here: `none`). -/
def pyGet {α : Type} (xs : List α) (i : Int) : Option α :=
  let j := if i < 0 then i + xs.length else i
  if 0 ≤ j then xs.get? j.toNat else none

/-- Python `int()` applied to a rational: truncation toward zero.
(`Rat.floor` is used rather than `Int.floor` to keep the definition
kernel-evaluable; they agree, see `ratFloor_eq_floor`.) -/
def truncToInt (q : ℚ) : Int := if 0 ≤ q then Rat.floor q else -(Rat.floor (-q))

/-- Python `a % b` on numbers, for the positive moduli used here
(result has the sign of `b`; for `b > 0` it lies in `[0, b)`). -/
def pymod (a b : ℚ) : ℚ := a - b * Rat.floor (a / b)

/-- `Rat.floor` is the mathematical floor. -/
lemma ratFloor_eq_floor (q : ℚ) : Rat.floor q = ⌊q⌋ := by
  rw [Rat.floor_def', ← Rat.floor_def]

/-- Sequential `Option`-valued mapping: models a Python loop that
builds a list/dict entry by entry and propagates any raised exception. -/
def optionTraverse {α β : Type} (f : α → Option β) : List α → Option (List β)
  | [] => some []
  | a :: tl => do
    let b ← f a
    let tl' ← optionTraverse f tl
    pure (b :: tl')

/-- Boolean test: `pre` is a prefix of `l`. -/
def leadsList {α : Type} [DecidableEq α] : List α → List α → Bool
  | [], _ => true
  | _ :: _, [] => false
  | a :: as, b :: bs => decide (a = b) && leadsList as bs

/-- Boolean test: `sub` occurs contiguously inside `l`
(Python's `sub in s` on strings, on exploded characters). -/
def withinList {α : Type} [DecidableEq α] (sub : List α) : List α → Bool
  | [] => leadsList sub []
  | a :: tl => leadsList sub (a :: tl) || withinList sub tl

/-- Python `'helio' in name`. -/
def containsHelio (s : String) : Bool := withinList "helio".toList s.toList

-- A. constants of `main.py`

/-- `PLANET_IDS` — geocentric body set, in source insertion order,
with the `swisseph` numeric body identifiers. -/
def PLANET_IDS : List (String × Nat) :=
  [("Sun", 0), ("Moon", 1), ("Mercury", 2), ("Venus", 3),
   ("Mars", 4), ("Jupiter", 5), ("Saturn", 6),
   ("Uranus", 7), ("Neptune", 8), ("Pluto", 9),
   ("Chiron", 15), ("Mean North Node", 10),
   ("Mean Black Moon Lilith", 12)]

/-- `HELIO_PLANET_IDS` — heliocentric body set. -/
def HELIO_PLANET_IDS : List (String × Nat) :=
  [("Earth", 14), ("Mercury", 2), ("Venus", 3),
   ("Mars", 4), ("Jupiter", 5), ("Saturn", 6),
   ("Uranus", 7), ("Neptune", 8), ("Pluto", 9),
   ("Chiron", 15)]

/-- `CHART_TYPE_ABBREVIATIONS`. -/
def CHART_TYPE_ABBREVIATIONS : List (String × String) :=
  [("natal", "N"), ("progressed", "P"), ("transit", "T"),
   ("solarArc", "SA"), ("solarReturn", "SR"), ("heliocentric", "H")]

/-- `SIGNS`. -/
def SIGNS : List String :=
  ["Aries", "Taurus", "Gemini", "Cancer", "Leo", "Virgo", "Libra",
   "Scorpio", "Sagittarius", "Capricorn", "Aquarius", "Pisces"]

/-- `ASPECTS` — aspect kinds with base angles, in source (priority) order. -/
def ASPECTS : List (String × ℚ) :=
  [("Conjunction", 0), ("Opposition", 180), ("Trine", 120),
   ("Square", 90), ("Sextile", 60)]

/-- `ORBS["major_luminary"]`. -/
def ORBS_major_luminary : List (String × ℚ) :=
  [("Conjunction", 8), ("Opposition", 8), ("Trine", 7),
   ("Square", 7), ("Sextile", 5)]

/-- `ORBS["default"]`. -/
def ORBS_default : List (String × ℚ) :=
  [("Conjunction", 6), ("Opposition", 6), ("Trine", 5),
   ("Square", 5), ("Sextile", 4)]

/-- `swe.FLG_SWIEPH`. -/
def FLG_SWIEPH : Nat := 2
/-- `swe.FLG_SPEED`. -/
def FLG_SPEED : Nat := 256
/-- `swe.FLG_HELCTR`. -/
def FLG_HELCTR : Nat := 8

-- B. data model (the Pydantic models of `main.py`)

/-- `PlanetData`. -/
structure PlanetData where
  sign : String
  degree : ℚ
  isRetro : Bool
  position : ℚ
  house : Option Nat
deriving DecidableEq

/-- `ChartData`. -/
structure ChartData where
  planets : List (String × PlanetData)
  houses : Option (List ℚ)
deriving DecidableEq

/-- `AspectData`. -/
structure AspectData where
  p1 : String
  p1Sign : String
  p2 : String
  p2Sign : String
  aspect : String
  orb : ℚ
  state : String
deriving DecidableEq

/-- A calendar date, as parsed from the request's `"%Y-%m-%d"` strings. -/
structure DateS where
  year : Int
  month : Int
  day : Int
deriving DecidableEq

/-- A clock time, as parsed from the request's `"%H:%M:%S"` strings. -/
structure TimeS where
  hour : Int
  minute : Int
  second : Int
deriving DecidableEq

/-- `NatalChartRequest` (date/time already parsed). -/
structure NatalChartRequest where
  date : DateS
  time : TimeS
  location : String

/-- `EventChartRequest`. -/
structure EventChartRequest where
  date : DateS

/-- `SolarReturnRequest`. -/
structure SolarReturnRequest where
  year : Int
  location : String

/-- `EventsRequest`. -/
structure EventsRequest where
  progressed : EventChartRequest
  transit : EventChartRequest
  solarArc : EventChartRequest
  solarReturn : SolarReturnRequest
  heliocentric : EventChartRequest

/-- `HoroscopeRequest`. -/
structure HoroscopeRequest where
  natal : NatalChartRequest
  events : EventsRequest

/-- `HoroscopeResponse`; the `aspects` dict is an insertion-ordered
association list. -/
structure HoroscopeResponse where
  natal : ChartData
  progressed : ChartData
  transit : ChartData
  solarArc : ChartData
  solarReturn : ChartData
  heliocentric : ChartData
  aspects : List (String × List AspectData)

/-- The external collaborators of the engine (Swiss Ephemeris and the
geocoder), as boundary functions:
* `geocode` — `get_lat_lon_from_location` (already includes its own
  internal (0,0) fallback, so it is total);
* `utcToJd` — `swe.utc_to_jd(...)[1]`, on an already-parsed date/time;
* `calcUt` — `swe.calc_ut(jd, planet_id, flags)[0]`, the position tuple
  `pos_data` (the return code is ignored by the source);
* `houses` — `swe.houses(jd, lat, lon, b'P')` as (cusp list, ascendant);
* `solretUt` — `swe.solret_ut(jd, year)` as (return code, jd, error). -/
structure Providers where
  geocode : String → ℚ × ℚ
  utcToJd : DateS → TimeS → ℚ
  calcUt : ℚ → Nat → Nat → List ℚ
  houses : ℚ → ℚ → ℚ → List ℚ × ℚ
  solretUt : ℚ → Int → Int × ℚ × String

/-- `get_julian_day` after string parsing: delegates to the ephemeris. -/
def get_julian_day (P : Providers) (date : DateS) (time : TimeS) : ℚ :=
  P.utcToJd date time

/-- The default `time_str = "12:00:00"` of `get_julian_day`. -/
def DEFAULT_TIME : TimeS := ⟨12, 0, 0⟩

-- C. `calculate_planets`

/-- `calculate_planets`: for each body, read the position tuple from the
ephemeris; `longitude = pos_data[0]`; retrograde iff the tuple has a
fourth component (the longitudinal speed) and it is negative; sign and
degree derived from the longitude.  A raised `IndexError` (empty tuple,
or longitude outside the sign table) aborts (`none`). -/
def calculate_planets (calcUt : ℚ → Nat → Nat → List ℚ) (jd : ℚ)
    (planet_ids : List (String × Nat)) (flags : Nat) :
    Option (List (String × PlanetData)) :=
  optionTraverse (fun np => do
    let pos_data := calcUt jd np.2 flags
    let longitude ← pyGet pos_data 0
    let is_retro := if pos_data.length > 3
      then decide (pos_data.getD 3 0 < 0) else false
    let s ← pyGet SIGNS (truncToInt (longitude / 30))
    pure (np.1, PlanetData.mk s (pymod longitude 30) is_retro longitude none))
    planet_ids

-- D. house assignment

/-- The sector-membership test of `assign_houses_to_planets` for house
sector `i` (0-indexed): `(cusp1 < cusp2 and cusp1 <= pos < cusp2) or
(cusp1 > cusp2 and (cusp1 <= pos < 360 or 0 <= pos < cusp2))`. -/
def inSector (cusps : List ℚ) (i : Nat) (pos : ℚ) : Bool :=
  let cusp1 := cusps.getD i 0
  let cusp2 := cusps.getD ((i + 1) % 12) 0
  decide ((cusp1 < cusp2 ∧ cusp1 ≤ pos ∧ pos < cusp2) ∨
    (cusp1 > cusp2 ∧ ((cusp1 ≤ pos ∧ pos < 360) ∨ (0 ≤ pos ∧ pos < cusp2))))

/-- The `for i in range(12)` scan with early `break`. -/
def houseScan (cusps : List ℚ) (pos : ℚ) : List Nat → Option Nat
  | [] => none
  | i :: rest =>
    if inSector cusps i pos then some (i + 1) else houseScan cusps pos rest

/-- First sector (in cusp order 0..11) containing `pos`, as house
number `i+1`; `none` when no sector matches. -/
def house_for (cusps : List ℚ) (pos : ℚ) : Option Nat :=
  houseScan cusps pos (List.range 12)

/-- `assign_houses_to_planets`: set each planet's house to the first
matching sector; on no match the planet's house is left unchanged. -/
def assign_houses_to_planets (planets : List (String × PlanetData))
    (house_cusps : List ℚ) : List (String × PlanetData) :=
  planets.map (fun np =>
    (np.1, { np.2 with house :=
      (match house_for house_cusps np.2.position with
       | some h => some h
       | none => np.2.house) }))

-- E. aspect matching

/-- `"Sun" in [p1_name, p2_name] or "Moon" in [p1_name, p2_name]`. -/
def isLuminary (n1 n2 : String) : Bool :=
  n1 == "Sun" || n2 == "Sun" || n1 == "Moon" || n2 == "Moon"

/-- `orb_rules[aspect_name]` for the chosen orb table (the lookup never
misses: both tables list exactly the five aspect names). -/
def orbOf (lum : Bool) (aname : String) : ℚ :=
  ((if lum then ORBS_major_luminary else ORBS_default).lookup aname).getD 0

/-- `abs(p1.position - p2.position)` folded to `≤ 180`. -/
def foldSep (a b : ℚ) : ℚ :=
  let d := |a - b|
  if d > 180 then 360 - d else d

/-- The `for aspect_name, aspect_degree in ASPECTS.items()` loop with
early `break`: emit a record for the first aspect kind whose deviation
is strictly inside the orb threshold. -/
def matchAspect (n1 n2 : String) (p1 p2 : PlanetData) (angle_diff : ℚ) :
    List (String × ℚ) → Option AspectData
  | [] => none
  | (aname, adeg) :: rest =>
    let lum := isLuminary n1 n2
    let orb := orbOf lum aname
    let dev := |angle_diff - adeg|
    if dev < orb then
      some (AspectData.mk n1 p1.sign n2 p2.sign aname dev "Applying")
    else matchAspect n1 n2 p1 p2 angle_diff rest

/-- Body of the double loop of `calculate_aspects` for index pair
`(i, j)`; `sameChart` models the Python identity test
`chart1 is chart2` (true exactly when the orchestrator passes the same
chart object on both sides). -/
def aspectAt (sameChart : Bool) (chart1 chart2 : ChartData) (i j : Nat) :
    Option AspectData :=
  if sameChart = true ∧ j ≤ i then none
  else match chart1.planets.get? i, chart2.planets.get? j with
    | some (n1, p1), some (n2, p2) =>
      matchAspect n1 n2 p1 p2 (foldSep p1.position p2.position) ASPECTS
    | _, _ => none

/-- `calculate_aspects`. -/
def calculate_aspects (sameChart : Bool) (chart1 chart2 : ChartData) :
    List AspectData :=
  (List.range chart1.planets.length).flatMap (fun i =>
    (List.range chart2.planets.length).filterMap (fun j =>
      aspectAt sameChart chart1 chart2 i j))

-- F. dates and the progression rule

/-- Day number of a calendar date (days-from-civil).  Python's
`datetime` uses the proleptic-Gregorian ordinal, which equals this up
to a fixed offset; only differences of day numbers are ever used. -/
def toDays (d : DateS) : Int :=
  let y := d.year - (if d.month ≤ 2 then 1 else 0)
  let era := Int.fdiv y 400
  let yoe := y - era * 400
  let mp := Int.emod (d.month + 9) 12
  let doy := Int.fdiv (153 * mp + 2) 5 + d.day - 1
  let doe := yoe * 365 + Int.fdiv yoe 4 - Int.fdiv yoe 100 + doy
  era * 146097 + doe - 719468

/-- A `datetime` instant measured in seconds. -/
def toSeconds (d : DateS) (t : TimeS) : Int :=
  86400 * toDays d + 3600 * t.hour + 60 * t.minute + t.second

/-- `00:00:00`. -/
def MIDNIGHT : TimeS := ⟨0, 0, 0⟩

/-- Python `(dt_a - dt_b).days` on instants given in seconds:
`timedelta.days` floors toward minus infinity. -/
def timedeltaDays (a b : Int) : Int := Int.fdiv (a - b) 86400

/-- `days_after_birth = (prog_dt - natal_dt.replace(hour=0, minute=0,
second=0)).days`: the progressed target date is parsed without a time
(midnight) and the natal instant has its clock time replaced by
midnight before differencing. -/
def days_after_birth (request : HoroscopeRequest) : Int :=
  timedeltaDays (toSeconds request.events.progressed.date MIDNIGHT)
    (toSeconds request.natal.date MIDNIGHT)

/-- `flags = swe.FLG_SWIEPH | swe.FLG_SPEED`. -/
def flags : Nat := FLG_SWIEPH ||| FLG_SPEED

/-- `jd_natal`. -/
def jd_natal (P : Providers) (request : HoroscopeRequest) : ℚ :=
  get_julian_day P request.natal.date request.natal.time

/-- `jd_progressed = jd_natal + days_after_birth`. -/
def jd_progressed (P : Providers) (request : HoroscopeRequest) : ℚ :=
  jd_natal P request + (days_after_birth request : ℚ)

-- G. the orchestrator `calculate_all_charts`

/-- The aspect-matrix loop of `calculate_all_charts`: over the chart
insertion order, for every pair `(i, j)` with `i ≤ j`, skip the pair
when exactly one of the two chart names contains `'helio'`; otherwise
store the pair's aspects under `"<abbrev i>-<abbrev j>"`.  The chart
passed twice for a self-pair is the same Python object, hence
`calculate_aspects` receives `sameChart = (c1_name == c2_name)`. -/
def buildAspects (charts : List (String × ChartData)) :
    List (String × List AspectData) :=
  let chart_names := charts.map Prod.fst
  (List.range chart_names.length).flatMap (fun i =>
    ((List.range chart_names.length).drop i).filterMap (fun j =>
      let c1_name := chart_names.getD i ""
      let c2_name := chart_names.getD j ""
      if (containsHelio c1_name ∧ ¬ containsHelio c2_name = true) ∨
         (¬ containsHelio c1_name = true ∧ containsHelio c2_name) then none
      else
        let key := (CHART_TYPE_ABBREVIATIONS.lookup c1_name).getD "" ++ "-" ++
          (CHART_TYPE_ABBREVIATIONS.lookup c2_name).getD ""
        some (key, calculate_aspects (c1_name == c2_name)
          ((charts.lookup c1_name).getD (ChartData.mk [] none))
          ((charts.lookup c2_name).getD (ChartData.mk [] none)))))

/-- The solar-return block of `calculate_all_charts` (lines building
`charts["solarReturn"]`): on a nonzero return code from the locator the
chart degrades to empty planets and empty cusps; on success planets and
houses are computed at the solar-return moment and geocoded
solar-return location. -/
def solarReturnChart (P : Providers) (request : HoroscopeRequest) :
    Option ChartData :=
  let jdn := jd_natal P request
  let sr_info := request.events.solarReturn
  let sr_lat := (P.geocode sr_info.location).1
  let sr_lon := (P.geocode sr_info.location).2
  let ret_code := (P.solretUt jdn sr_info.year).1
  let jd_solret := (P.solretUt jdn sr_info.year).2.1
  if ret_code ≠ 0 then
    pure (ChartData.mk [] (some []))
  else do
    let sr_planets0 ← calculate_planets P.calcUt jd_solret PLANET_IDS flags
    let sr_houses := (P.houses jd_solret sr_lat sr_lon).1
    pure (ChartData.mk (assign_houses_to_planets sr_planets0 sr_houses)
      (some sr_houses))

/-- `calculate_all_charts`: builds the six charts in source order
(natal, transit, progressed, solarArc, solarReturn, heliocentric) and
the pairwise aspect matrix.  `none` models a Python exception escaping
the function (aborting the request). -/
def calculate_all_charts (P : Providers) (request : HoroscopeRequest) :
    Option HoroscopeResponse := do
  -- natal chart
  let natal_info := request.natal
  let lat := (P.geocode natal_info.location).1
  let lon := (P.geocode natal_info.location).2
  let jdn := jd_natal P request
  let natal_planets0 ← calculate_planets P.calcUt jdn PLANET_IDS flags
  let natal_houses := (P.houses jdn lat lon).1
  let natal_planets := assign_houses_to_planets natal_planets0 natal_houses
  let natalChart := ChartData.mk natal_planets (some natal_houses)
  -- transit chart
  let jd_transit := get_julian_day P request.events.transit.date DEFAULT_TIME
  let transit_planets ← calculate_planets P.calcUt jd_transit PLANET_IDS flags
  let transitChart := ChartData.mk transit_planets none
  -- progressed chart
  let prog_planets ← calculate_planets P.calcUt (jd_progressed P request)
    PLANET_IDS flags
  let progChart := ChartData.mk prog_planets none
  -- solar-arc chart
  let progSun ← progChart.planets.lookup "Sun"
  let natalSun ← natalChart.planets.lookup "Sun"
  let solar_arc := pymod (progSun.position - natalSun.position) 360
  let sa_planets ← optionTraverse (fun np => do
      let new_pos := pymod (np.2.position + solar_arc) 360
      let s ← pyGet SIGNS (truncToInt (new_pos / 30))
      pure (np.1, PlanetData.mk s (pymod new_pos 30) np.2.isRetro new_pos
        np.2.house)) natal_planets
  let saChart := ChartData.mk sa_planets (some natal_houses)
  -- solar-return chart
  let srChart ← solarReturnChart P request
  -- heliocentric chart
  let jd_helio := get_julian_day P request.events.heliocentric.date DEFAULT_TIME
  let helio_flags := flags ||| FLG_HELCTR
  let helio_planets ← calculate_planets P.calcUt jd_helio HELIO_PLANET_IDS
    helio_flags
  let helioChart := ChartData.mk helio_planets none
  -- aspect matrix over the chart dict's insertion order
  let charts : List (String × ChartData) :=
    [("natal", natalChart), ("transit", transitChart),
     ("progressed", progChart), ("solarArc", saChart),
     ("solarReturn", srChart), ("heliocentric", helioChart)]
  let aspects := buildAspects charts
  pure (HoroscopeResponse.mk natalChart progChart transitChart saChart
    srChart helioChart aspects)

-- H. basic lemmas

lemma pymod_nonneg (a b : ℚ) (hb : 0 < b) : 0 ≤ pymod a b := by
  unfold pymod
  rw [ratFloor_eq_floor]
  have h1 : (⌊a / b⌋ : ℚ) ≤ a / b := Int.floor_le _
  have h2 : (⌊a / b⌋ : ℚ) * b ≤ a := (le_div_iff hb).mp h1
  nlinarith

lemma pymod_lt (a b : ℚ) (hb : 0 < b) : pymod a b < b := by
  unfold pymod
  rw [ratFloor_eq_floor]
  have h1 : a / b < (⌊a / b⌋ : ℚ) + 1 := Int.lt_floor_add_one _
  have h2 : a < ((⌊a / b⌋ : ℚ) + 1) * b := (div_lt_iff hb).mp h1
  nlinarith

lemma optionTraverse_length {α β : Type} (f : α → Option β) :
    ∀ (l : List α) (l' : List β), optionTraverse f l = some l' →
      l'.length = l.length := by
  intro l
  induction l with
  | nil => intro l' h; simp only [optionTraverse] at h; cases h; rfl
  | cons a tl ih =>
    intro l' h
    simp only [optionTraverse, Option.bind_eq_bind, Option.bind_eq_some] at h
    obtain ⟨b, _, tl', htl, h⟩ := h
    cases h
    simp [ih tl' htl]

lemma optionTraverse_get? {α β : Type} (f : α → Option β) :
    ∀ (l : List α) (l' : List β), optionTraverse f l = some l' →
      ∀ (i : Nat) (a : α), l.get? i = some a →
        ∃ b, l'.get? i = some b ∧ f a = some b := by
  intro l
  induction l with
  | nil => intro l' _ i a ha; simp at ha
  | cons x tl ih =>
    intro l' h i a ha
    simp only [optionTraverse, Option.bind_eq_bind, Option.bind_eq_some] at h
    obtain ⟨b, hb, tl', htl, h⟩ := h
    cases h
    match i with
    | 0 =>
      simp only [List.get?] at ha
      cases ha
      exact ⟨b, rfl, hb⟩
    | i + 1 =>
      simp only [List.get?] at ha ⊢
      exact ih tl' htl i a ha

-- I. claim C9

/-- C9: for every planet computed by `calculate_planets`, `isRetro` is
true iff the position provider returned more than three components and
the fourth component (the longitudinal speed) is negative; with three
or fewer components `isRetro` defaults to false and the planet is still
produced. -/
theorem c9_retro_flag (calcUt : ℚ → Nat → Nat → List ℚ) (jd : ℚ)
    (planet_ids : List (String × Nat)) (fl : Nat)
    (ps : List (String × PlanetData))
    (_hnd : (planet_ids.map Prod.fst).Nodup)
    (h : calculate_planets calcUt jd planet_ids fl = some ps)
    (i : Nat) (n : String) (pid : Nat)
    (hid : planet_ids.get? i = some (n, pid)) :
    ∃ pd, ps.get? i = some (n, pd) ∧
      (pd.isRetro = true ↔
        ((calcUt jd pid fl).length > 3 ∧ (calcUt jd pid fl).getD 3 0 < 0)) ∧
      ((calcUt jd pid fl).length ≤ 3 → pd.isRetro = false) := by
  unfold calculate_planets at h
  obtain ⟨b, hb, hfb⟩ := optionTraverse_get? _ _ _ h i (n, pid) hid
  simp only [Option.bind_eq_bind, Option.bind_eq_some, Option.pure_def,
    Option.some_inj] at hfb
  obtain ⟨lon, _hlon, s, _hs, hmk⟩ := hfb
  refine ⟨b.2, ?_, ?_, ?_⟩
  · rw [← hmk] at hb ⊢
    exact hb
  · rw [← hmk]
    simp only
    by_cases hlen : (calcUt jd pid fl).length > 3
    · simp [hlen, decide_eq_true_eq]
    · simp [hlen]
  · intro hle
    rw [← hmk]
    simp only
    have : ¬ ((calcUt jd pid fl).length > 3) := by omega
    simp [this]

/-- Concrete position provider for the C9 witness: the Sun gets a
four-component tuple with negative speed, the Moon a three-component
tuple. -/
def calcUtW : ℚ → Nat → Nat → List ℚ :=
  fun _ pid _ => if pid = 0 then [10, 1, 1, -(1/2)] else [40, 1, 1]

/-- Planet table for the C9 witness. -/
def idsW : List (String × Nat) := [("Sun", 0), ("Moon", 1)]

/-- Output of `calculate_planets` on the C9 witness inputs. -/
def psW : List (String × PlanetData) :=
  [("Sun", ⟨"Aries", 10, true, 10, none⟩),
   ("Moon", ⟨"Taurus", 10, false, 40, none⟩)]

theorem c9_retro_flag_witness :
    ((idsW.map Prod.fst).Nodup ∧
      calculate_planets calcUtW 0 idsW 0 = some psW ∧
      idsW.get? 0 = some ("Sun", 0)) ∧
    (∃ pd, psW.get? 0 = some ("Sun", pd) ∧
      (pd.isRetro = true ↔
        ((calcUtW 0 0 0).length > 3 ∧ (calcUtW 0 0 0).getD 3 0 < 0)) ∧
      ((calcUtW 0 0 0).length ≤ 3 → pd.isRetro = false)) :=
  ⟨⟨by decide, by decide, by decide⟩,
    c9_retro_flag calcUtW 0 idsW 0 psW (by decide) (by decide) 0 "Sun" 0
      (by decide)⟩

-- J. claim C7

/-- C7: the progressed Julian day equals the natal Julian day plus `N`,
where `N = days_after_birth` is exactly the count of whole calendar
days between the progressed target date and the (midnight-normalized)
natal birth date — the day-number difference of the two dates — used
directly without rescaling. -/
theorem c7_progressed_jd (P : Providers) (request : HoroscopeRequest) :
    days_after_birth request =
      toDays request.events.progressed.date - toDays request.natal.date ∧
    jd_progressed P request = jd_natal P request +
      ((toDays request.events.progressed.date -
        toDays request.natal.date : Int) : ℚ) := by
  have hd : days_after_birth request =
      toDays request.events.progressed.date - toDays request.natal.date := by
    unfold days_after_birth timedeltaDays toSeconds MIDNIGHT
    simp only
    have : (86400 * toDays request.events.progressed.date + 3600 * 0 + 60 * 0 + 0) -
        (86400 * toDays request.natal.date + 3600 * 0 + 60 * 0 + 0) =
        86400 * (toDays request.events.progressed.date -
          toDays request.natal.date) := by ring
    rw [this, Int.mul_fdiv_cancel_left _ (by norm_num)]
  exact ⟨hd, by unfold jd_progressed; rw [hd]⟩

-- K. claim C4

/-- A 12-cusp sequence is well formed when its 12 half-open sectors
(with wraparound, as tested by `inSector`) partition the circle
exactly once: every longitude in `[0, 360)` lies in exactly one
sector. -/
def WellFormedCusps (cusps : List ℚ) : Prop :=
  cusps.length = 12 ∧ ∀ pos : ℚ, 0 ≤ pos → pos < 360 →
    ∃! i : Nat, i < 12 ∧ inSector cusps i pos = true

lemma houseScan_first (cusps : List ℚ) (pos : ℚ) :
    ∀ (l : List Nat) (i : Nat), i ∈ l → inSector cusps i pos = true →
      (∀ j ∈ l, inSector cusps j pos = true → j = i) →
      houseScan cusps pos l = some (i + 1) := by
  intro l
  induction l with
  | nil => intro i hi; simp at hi
  | cons a tl ih =>
    intro i hi hins huniq
    by_cases ha : a = i
    · subst ha
      simp [houseScan, hins]
    · have hins_a : inSector cusps a pos = false := by
        cases h : inSector cusps a pos with
        | false => rfl
        | true => exact absurd (huniq a (List.mem_cons_self a tl) h) ha
      have hi' : i ∈ tl := by
        rcases List.mem_cons.mp hi with h | h
        · exact absurd h.symm ha
        · exact h
      simp only [houseScan, hins_a, Bool.false_eq_true, if_false]
      exact ih i hi' hins (fun j hj hjs => huniq j (List.mem_cons_of_mem _ hj) hjs)

lemma houseScan_none (cusps : List ℚ) (pos : ℚ) :
    ∀ l : List Nat, (∀ j ∈ l, inSector cusps j pos = false) →
      houseScan cusps pos l = none := by
  intro l
  induction l with
  | nil => intro _; rfl
  | cons a tl ih =>
    intro h
    simp only [houseScan, h a (List.mem_cons_self a tl), Bool.false_eq_true,
      if_false]
    exact ih (fun j hj => h j (List.mem_cons_of_mem _ hj))

/-- C4: for a well-formed 12-cusp sequence and any longitude `L` in
`[0, 360)`, the house assigner picks exactly one house number in
`[1, 12]` — `i + 1` for the first (indeed unique) sector `i`
containing `L`; and when no sector matches a position, the planet is
left without a house (`house_for` yields `none`, and
`assign_houses_to_planets` leaves the planet entry unchanged) rather
than failing. -/
theorem c4_house_assigner (cusps : List ℚ) (L : ℚ)
    (hwf : WellFormedCusps cusps) (h0 : 0 ≤ L) (h1 : L < 360) :
    (∃ i, i < 12 ∧ inSector cusps i L = true ∧
      (∀ j, j < 12 → inSector cusps j L = true → j = i) ∧
      (∀ j, j < i → inSector cusps j L = false) ∧
      house_for cusps L = some (i + 1) ∧ 1 ≤ i + 1 ∧ i + 1 ≤ 12) ∧
    (∀ pos : ℚ, (∀ j, j < 12 → inSector cusps j pos = false) →
      house_for cusps pos = none) ∧
    (∀ (n : String) (p : PlanetData), house_for cusps p.position = none →
      assign_houses_to_planets [(n, p)] cusps = [(n, p)]) := by
  refine ⟨?_, ?_, ?_⟩
  · obtain ⟨i, ⟨hi12, hins⟩, huniq⟩ := hwf.2 L h0 h1
    refine ⟨i, hi12, hins, ?_, ?_, ?_, by omega, by omega⟩
    · intro j hj hjs
      exact huniq j ⟨hj, hjs⟩
    · intro j hji
      cases h : inSector cusps j L with
      | false => rfl
      | true =>
        have : j = i := huniq j ⟨by omega, h⟩
        omega
    · apply houseScan_first
      · exact List.mem_range.mpr hi12
      · exact hins
      · intro j hj hjs
        exact huniq j ⟨List.mem_range.mp hj, hjs⟩
  · intro pos hnone
    apply houseScan_none
    intro j hj
    exact hnone j (List.mem_range.mp hj)
  · intro n p hnone
    simp [assign_houses_to_planets, hnone]

/-- Equally spaced cusps at multiples of 30°, for the C4 witness. -/
def cusps0 : List ℚ :=
  [0, 30, 60, 90, 120, 150, 180, 210, 240, 270, 300, 330]

lemma cusps0_sector (i : Nat) (hi : i < 12) (pos : ℚ) :
    inSector cusps0 i pos = true ↔
      (30 * (i : ℚ) ≤ pos ∧ pos < 30 * ((i : ℚ) + 1)) := by
  interval_cases i <;>
    simp [inSector, cusps0, decide_eq_true_eq] <;> norm_num

lemma cusps0_wf : WellFormedCusps cusps0 := by
  refine ⟨by decide, ?_⟩
  intro pos h0 h1
  have h30 : (0 : ℚ) < 30 := by norm_num
  set n : Int := ⌊pos / 30⌋ with hn
  have hn0 : 0 ≤ n := Int.floor_nonneg.mpr (by positivity)
  have hn12 : n < 12 := by
    apply Int.floor_lt.mpr
    rw [div_lt_iff h30]
    push_cast
    linarith
  have hlow : 30 * (n : ℚ) ≤ pos := by
    have := Int.floor_le (pos / 30)
    rw [← hn] at this
    nlinarith
  have hhigh : pos < 30 * ((n : ℚ) + 1) := by
    have := Int.lt_floor_add_one (pos / 30)
    rw [← hn] at this
    nlinarith
  have htn : ((n.toNat : ℚ)) = (n : ℚ) := by
    exact_mod_cast congrArg (fun z : Int => (z : ℚ)) (Int.toNat_of_nonneg hn0)
  have htn12 : n.toNat < 12 := by omega
  refine ⟨n.toNat, ⟨htn12, ?_⟩, ?_⟩
  · rw [cusps0_sector n.toNat htn12 pos, htn]
    exact ⟨hlow, hhigh⟩
  · rintro j ⟨hj12, hjs⟩
    rw [cusps0_sector j hj12 pos] at hjs
    have hA : (j : ℚ) < (n : ℚ) + 1 := by nlinarith [hjs.1, hjs.2]
    have hB : (n : ℚ) < (j : ℚ) + 1 := by nlinarith [hjs.1, hjs.2]
    have hA' : (j : Int) < n + 1 := by exact_mod_cast hA
    have hB' : n < (j : Int) + 1 := by exact_mod_cast hB
    omega

theorem c4_house_assigner_witness :
    (WellFormedCusps cusps0 ∧ (0 : ℚ) ≤ 45 ∧ (45 : ℚ) < 360) ∧
    ((∃ i, i < 12 ∧ inSector cusps0 i 45 = true ∧
      (∀ j, j < 12 → inSector cusps0 j 45 = true → j = i) ∧
      (∀ j, j < i → inSector cusps0 j 45 = false) ∧
      house_for cusps0 45 = some (i + 1) ∧ 1 ≤ i + 1 ∧ i + 1 ≤ 12) ∧
    (∀ pos : ℚ, (∀ j, j < 12 → inSector cusps0 j pos = false) →
      house_for cusps0 pos = none) ∧
    (∀ (n : String) (p : PlanetData), house_for cusps0 p.position = none →
      assign_houses_to_planets [(n, p)] cusps0 = [(n, p)])) :=
  ⟨⟨cusps0_wf, by norm_num, by norm_num⟩,
    c4_house_assigner cusps0 45 cusps0_wf (by norm_num) (by norm_num)⟩

-- L. aspect-matcher lemmas and claims C2, C8

lemma mem_calculate_aspects (same : Bool) (c1 c2 : ChartData) (r : AspectData) :
    r ∈ calculate_aspects same c1 c2 ↔
      ∃ i j, i < c1.planets.length ∧ j < c2.planets.length ∧
        aspectAt same c1 c2 i j = some r := by
  unfold calculate_aspects
  simp only [List.mem_flatMap, List.mem_filterMap, List.mem_range]
  constructor
  · rintro ⟨i, hi, j, hj, h⟩
    exact ⟨i, j, hi, hj, h⟩
  · rintro ⟨i, j, hi, hj, h⟩
    exact ⟨i, hi, j, hj, h⟩

lemma matchAspect_spec (n1 n2 : String) (p1 p2 : PlanetData) (d : ℚ) :
    ∀ (entries : List (String × ℚ)) (r : AspectData),
      matchAspect n1 n2 p1 p2 d entries = some r →
      r.p1 = n1 ∧ r.p1Sign = p1.sign ∧ r.p2 = n2 ∧ r.p2Sign = p2.sign ∧
      r.state = "Applying" ∧
      ∃ k adeg, entries.get? k = some (r.aspect, adeg) ∧
        r.orb = |d - adeg| ∧ r.orb < orbOf (isLuminary n1 n2) r.aspect ∧
        ∀ k' a' d', k' < k → entries.get? k' = some (a', d') →
          ¬ (|d - d'| < orbOf (isLuminary n1 n2) a') := by
  intro entries
  induction entries with
  | nil => intro r h; simp [matchAspect] at h
  | cons e rest ih =>
    obtain ⟨aname, adeg⟩ := e
    intro r h
    simp only [matchAspect] at h
    by_cases hlt : |d - adeg| < orbOf (isLuminary n1 n2) aname
    · rw [if_pos hlt] at h
      cases h
      refine ⟨rfl, rfl, rfl, rfl, rfl, 0, adeg, rfl, rfl, hlt, ?_⟩
      intro k' a' d' hk'
      omega
    · rw [if_neg hlt] at h
      obtain ⟨h1, h2, h3, h4, h5, k, adeg', hget, horb, hbound, hprev⟩ := ih r h
      refine ⟨h1, h2, h3, h4, h5, k + 1, adeg', by simpa using hget, horb,
        hbound, ?_⟩
      intro k' a' d' hk' hget'
      match k' with
      | 0 =>
        simp only [List.get?, Option.some_inj, Prod.mk.injEq] at hget'
        rw [← hget'.1, ← hget'.2]
        exact hlt
      | k' + 1 =>
        simp only [List.get?] at hget'
        exact hprev k' a' d' (by omega) hget'

lemma aspectAt_some (same : Bool) (c1 c2 : ChartData) (i j : Nat)
    (r : AspectData) (h : aspectAt same c1 c2 i j = some r) :
    ¬ (same = true ∧ j ≤ i) ∧
    ∃ p1 p2, c1.planets.get? i = some (r.p1, p1) ∧
      c2.planets.get? j = some (r.p2, p2) ∧ r.p1Sign = p1.sign ∧
      r.p2Sign = p2.sign ∧
      matchAspect r.p1 r.p2 p1 p2 (foldSep p1.position p2.position) ASPECTS =
        some r := by
  unfold aspectAt at h
  by_cases hskip : same = true ∧ j ≤ i
  · rw [if_pos hskip] at h
    exact absurd h (by simp)
  · rw [if_neg hskip] at h
    refine ⟨hskip, ?_⟩
    split at h
    next n1 p1 n2 p2 heq1 heq2 =>
      obtain ⟨e1, e2, e3, e4, _, _⟩ := matchAspect_spec n1 n2 p1 p2 _ ASPECTS r h
      refine ⟨p1, p2, ?_, ?_, e2, e4, ?_⟩
      · rw [e1]; exact heq1
      · rw [e3]; exact heq2
      · rw [e1, e3]; exact h
    next => exact absurd h (by simp)

/-- C2: every aspect record emitted by `calculate_aspects` comes from a
compared planet pair; its `orb` is the deviation of the folded circular
separation of the two longitudes from the base angle of some aspect
kind in the priority table, with `0 ≤ orb <` the orb threshold chosen
by the luminary rule, and every aspect kind strictly earlier in the
priority order failed its own threshold test (the scan stops at the
first strict match). -/
theorem c2_aspect_matcher (same : Bool) (c1 c2 : ChartData) (r : AspectData)
    (hmem : r ∈ calculate_aspects same c1 c2) :
    ∃ i j p1 p2, c1.planets.get? i = some (r.p1, p1) ∧
      c2.planets.get? j = some (r.p2, p2) ∧
      r.p1Sign = p1.sign ∧ r.p2Sign = p2.sign ∧
      ∃ k adeg, ASPECTS.get? k = some (r.aspect, adeg) ∧
        r.orb = |foldSep p1.position p2.position - adeg| ∧
        0 ≤ r.orb ∧
        r.orb < orbOf (isLuminary r.p1 r.p2) r.aspect ∧
        ∀ k' a' d', k' < k → ASPECTS.get? k' = some (a', d') →
          ¬ (|foldSep p1.position p2.position - d'| <
            orbOf (isLuminary r.p1 r.p2) a') := by
  obtain ⟨i, j, _, _, ha⟩ := (mem_calculate_aspects same c1 c2 r).mp hmem
  obtain ⟨_, p1, p2, hg1, hg2, hs1, hs2, hm⟩ := aspectAt_some same c1 c2 i j r ha
  obtain ⟨e1, _, e3, _, _, k, adeg, hget, horb, hbound, hprev⟩ :=
    matchAspect_spec r.p1 r.p2 p1 p2 _ ASPECTS r hm
  refine ⟨i, j, p1, p2, hg1, hg2, hs1, hs2, k, adeg, hget, horb, ?_, ?_, ?_⟩
  · rw [horb]; exact abs_nonneg _
  · rw [e1, e3] at hbound; exact hbound
  · rw [e1, e3] at hprev; exact hprev

/-- Chart for the C2 witness: one planet at 0°. -/
def cW1 : ChartData := ⟨[("Mars", ⟨"Aries", 0, false, 0, none⟩)], none⟩

/-- Chart for the C2 witness: one planet at 179°. -/
def cW2 : ChartData := ⟨[("Venus", ⟨"Virgo", 29, false, 179, none⟩)], none⟩

/-- The single aspect record the matcher emits on `cW1`/`cW2`:
separation 179° matches Opposition with orb 1 under the default orb
table. -/
def rW : AspectData := ⟨"Mars", "Aries", "Venus", "Virgo", "Opposition", 1, "Applying"⟩

theorem c2_aspect_matcher_witness :
    rW ∈ calculate_aspects false cW1 cW2 ∧
    (∃ i j p1 p2, cW1.planets.get? i = some (rW.p1, p1) ∧
      cW2.planets.get? j = some (rW.p2, p2) ∧
      rW.p1Sign = p1.sign ∧ rW.p2Sign = p2.sign ∧
      ∃ k adeg, ASPECTS.get? k = some (rW.aspect, adeg) ∧
        rW.orb = |foldSep p1.position p2.position - adeg| ∧
        0 ≤ rW.orb ∧
        rW.orb < orbOf (isLuminary rW.p1 rW.p2) rW.aspect ∧
        ∀ k' a' d', k' < k → ASPECTS.get? k' = some (a', d') →
          ¬ (|foldSep p1.position p2.position - d'| <
            orbOf (isLuminary rW.p1 rW.p2) a')) :=
  ⟨by decide, c2_aspect_matcher false cW1 cW2 rW (by decide)⟩

lemma nodup_get?_inj {l : List (String × PlanetData)}
    (hnd : (l.map Prod.fst).Nodup) {i j : Nat} {n : String}
    {p q : PlanetData} (hi : l.get? i = some (n, p))
    (hj : l.get? j = some (n, q)) : i = j := by
  have hi' : (l.map Prod.fst).get? i = some n := by
    rw [List.get?_map, hi]; rfl
  have hj' : (l.map Prod.fst).get? j = some n := by
    rw [List.get?_map, hj]; rfl
  have hlen : i < (l.map Prod.fst).length := by
    by_contra hc
    rw [List.get?_eq_none.mpr (by omega)] at hi'
    exact Option.noConfusion hi'
  exact List.get?_inj hlen hnd (hi'.trans hj'.symm)

/-- C8: when a chart (with distinct planet names) is compared with
itself, every emitted record comes from an index pair `(i, j)` with
`i < j`, so no record relates a planet to itself, and each unordered
planet pair yields at most one record; for two distinct charts, every
ordered planet combination that matches an aspect contributes its
record to the output. -/
theorem c8_self_pair (c c1 c2 : ChartData)
    (hnd : (c.planets.map Prod.fst).Nodup) :
    (∀ r ∈ calculate_aspects true c c,
      ∃ i j p1 p2, i < j ∧ c.planets.get? i = some (r.p1, p1) ∧
        c.planets.get? j = some (r.p2, p2) ∧ r.p1 ≠ r.p2) ∧
    (∀ r s, r ∈ calculate_aspects true c c → s ∈ calculate_aspects true c c →
      ((r.p1 = s.p1 ∧ r.p2 = s.p2) ∨ (r.p1 = s.p2 ∧ r.p2 = s.p1)) → r = s) ∧
    (∀ i j n1 p1 n2 p2 r, c1.planets.get? i = some (n1, p1) →
      c2.planets.get? j = some (n2, p2) →
      matchAspect n1 n2 p1 p2 (foldSep p1.position p2.position) ASPECTS =
        some r →
      r ∈ calculate_aspects false c1 c2) := by
  refine ⟨?_, ?_, ?_⟩
  · intro r hr
    obtain ⟨i, j, _, _, ha⟩ := (mem_calculate_aspects true c c r).mp hr
    obtain ⟨hskip, p1, p2, hg1, hg2, _, _, _⟩ := aspectAt_some true c c i j r ha
    have hij : i < j := by
      by_contra hc
      exact hskip ⟨rfl, by omega⟩
    refine ⟨i, j, p1, p2, hij, hg1, hg2, ?_⟩
    intro heq
    rw [heq] at hg1
    have := nodup_get?_inj hnd hg1 hg2
    omega
  · intro r s hr hs hnames
    obtain ⟨i, j, _, _, har⟩ := (mem_calculate_aspects true c c r).mp hr
    obtain ⟨hskr, p1, p2, hg1, hg2, _, _, hmr⟩ := aspectAt_some true c c i j r har
    obtain ⟨i', j', _, _, has⟩ := (mem_calculate_aspects true c c s).mp hs
    obtain ⟨hsks, q1, q2, hg1', hg2', _, _, hms⟩ :=
      aspectAt_some true c c i' j' s has
    have hij : i < j := by by_contra hc; exact hskr ⟨rfl, by omega⟩
    have hij' : i' < j' := by by_contra hc; exact hsks ⟨rfl, by omega⟩
    rcases hnames with ⟨e1, e2⟩ | ⟨e1, e2⟩
    · rw [e1] at hg1
      rw [e2] at hg2
      have hii : i = i' := nodup_get?_inj hnd hg1 hg1'
      have hjj : j = j' := nodup_get?_inj hnd hg2 hg2'
      rw [hii] at hg1
      rw [hjj] at hg2
      have hp1 : p1 = q1 := by
        rw [hg1'] at hg1
        exact ((Prod.mk.injEq _ _ _ _ ▸ (Option.some_inj.mp hg1)).2).symm
      have hp2 : p2 = q2 := by
        rw [hg2'] at hg2
        exact ((Prod.mk.injEq _ _ _ _ ▸ (Option.some_inj.mp hg2)).2).symm
      rw [e1, e2, hp1, hp2] at hmr
      exact Option.some_inj.mp (hmr.symm.trans hms)
    · rw [e1] at hg1
      rw [e2] at hg2
      have h1 : i = j' := nodup_get?_inj hnd hg1 hg2'
      have h2 : j = i' := nodup_get?_inj hnd hg2 hg1'
      omega
  · intro i j n1 p1 n2 p2 r hg1 hg2 hm
    have hi : i < c1.planets.length := by
      by_contra hc
      rw [List.get?_eq_none.mpr (by omega)] at hg1
      exact Option.noConfusion hg1
    have hj : j < c2.planets.length := by
      by_contra hc
      rw [List.get?_eq_none.mpr (by omega)] at hg2
      exact Option.noConfusion hg2
    refine (mem_calculate_aspects false c1 c2 r).mpr ⟨i, j, hi, hj, ?_⟩
    unfold aspectAt
    rw [if_neg (by simp)]
    simp only [hg1, hg2]
    exact hm

/-- Two-planet chart (distinct names) for the C8 witness; Sun at 0° and
Moon at 90° form a Square. -/
def cS : ChartData :=
  ⟨[("Sun", ⟨"Aries", 0, false, 0, none⟩),
    ("Moon", ⟨"Cancer", 0, false, 90, none⟩)], none⟩

theorem c8_self_pair_witness :
    (cS.planets.map Prod.fst).Nodup ∧
    ((∀ r ∈ calculate_aspects true cS cS,
      ∃ i j p1 p2, i < j ∧ cS.planets.get? i = some (r.p1, p1) ∧
        cS.planets.get? j = some (r.p2, p2) ∧ r.p1 ≠ r.p2) ∧
    (∀ r s, r ∈ calculate_aspects true cS cS →
      s ∈ calculate_aspects true cS cS →
      ((r.p1 = s.p1 ∧ r.p2 = s.p2) ∨ (r.p1 = s.p2 ∧ r.p2 = s.p1)) → r = s) ∧
    (∀ i j n1 p1 n2 p2 r, cS.planets.get? i = some (n1, p1) →
      cS.planets.get? j = some (n2, p2) →
      matchAspect n1 n2 p1 p2 (foldSep p1.position p2.position) ASPECTS =
        some r →
      r ∈ calculate_aspects false cS cS)) :=
  ⟨by decide, c8_self_pair cS cS cS (by decide)⟩

-- M. orchestrator inversion and claims C10, C6, C1, C5, C3

/-- The natal house cusps as computed inside `calculate_all_charts`
(ephemeris houses at the natal Julian day and geocoded birth
location). -/
def natal_houses_of (P : Providers) (request : HoroscopeRequest) : List ℚ :=
  (P.houses (jd_natal P request) (P.geocode request.natal.location).1
    (P.geocode request.natal.location).2).1

lemma calcAll_inv (P : Providers) (request : HoroscopeRequest)
    (resp : HoroscopeResponse) (h : calculate_all_charts P request = some resp) :
    ∃ (natal_planets0 transit_planets prog_planets :
        List (String × PlanetData))
      (progSun natalSun : PlanetData)
      (sa_planets : List (String × PlanetData)) (srChart : ChartData)
      (helio_planets : List (String × PlanetData)),
      calculate_planets P.calcUt (jd_natal P request) PLANET_IDS flags =
        some natal_planets0 ∧
      calculate_planets P.calcUt
        (get_julian_day P request.events.transit.date DEFAULT_TIME)
        PLANET_IDS flags = some transit_planets ∧
      calculate_planets P.calcUt (jd_progressed P request) PLANET_IDS flags =
        some prog_planets ∧
      prog_planets.lookup "Sun" = some progSun ∧
      (assign_houses_to_planets natal_planets0
        (natal_houses_of P request)).lookup "Sun" = some natalSun ∧
      optionTraverse (fun np => do
        let new_pos := pymod (np.2.position +
          pymod (progSun.position - natalSun.position) 360) 360
        let s ← pyGet SIGNS (truncToInt (new_pos / 30))
        pure (np.1, PlanetData.mk s (pymod new_pos 30) np.2.isRetro new_pos
          np.2.house))
        (assign_houses_to_planets natal_planets0 (natal_houses_of P request)) =
        some sa_planets ∧
      solarReturnChart P request = some srChart ∧
      calculate_planets P.calcUt
        (get_julian_day P request.events.heliocentric.date DEFAULT_TIME)
        HELIO_PLANET_IDS (flags ||| FLG_HELCTR) = some helio_planets ∧
      resp = HoroscopeResponse.mk
        (ChartData.mk (assign_houses_to_planets natal_planets0
          (natal_houses_of P request)) (some (natal_houses_of P request)))
        (ChartData.mk prog_planets none)
        (ChartData.mk transit_planets none)
        (ChartData.mk sa_planets (some (natal_houses_of P request)))
        srChart
        (ChartData.mk helio_planets none)
        (buildAspects
          [("natal", ChartData.mk (assign_houses_to_planets natal_planets0
              (natal_houses_of P request)) (some (natal_houses_of P request))),
           ("transit", ChartData.mk transit_planets none),
           ("progressed", ChartData.mk prog_planets none),
           ("solarArc", ChartData.mk sa_planets
              (some (natal_houses_of P request))),
           ("solarReturn", srChart),
           ("heliocentric", ChartData.mk helio_planets none)]) := by
  unfold calculate_all_charts at h
  simp only [Option.bind_eq_bind, Option.bind_eq_some, Option.pure_def,
    Option.some_inj] at h
  obtain ⟨np0, hnp0, tp, htp, pp, hpp, psun, hpsun, nsun, hnsun, sap, hsap,
    src, hsrc, hp, hhp, hresp⟩ := h
  exact ⟨np0, tp, pp, psun, nsun, sap, src, hp, hnp0, htp, hpp, hpsun, hnsun,
    hsap, hsrc, hhp, hresp.symm⟩

lemma solarReturnChart_fail (P : Providers) (request : HoroscopeRequest)
    (hfail :
      (P.solretUt (jd_natal P request) request.events.solarReturn.year).1 ≠ 0) :
    solarReturnChart P request = some (ChartData.mk [] (some [])) := by
  unfold solarReturnChart
  simp only [if_pos hfail, Option.pure_def]

/-- The 16 aspect-matrix keys, in emission order, of every successful
response. -/
def EXPECTED_KEYS : List String :=
  ["N-N", "N-T", "N-P", "N-SA", "N-SR", "T-T", "T-P", "T-SA", "T-SR",
   "P-P", "P-SA", "P-SR", "SA-SA", "SA-SR", "SR-SR", "H-H"]

lemma aspects_keys_eq (P : Providers) (request : HoroscopeRequest)
    (resp : HoroscopeResponse) (h : calculate_all_charts P request = some resp) :
    resp.aspects.map Prod.fst = EXPECTED_KEYS := by
  obtain ⟨np0, tp, pp, psun, nsun, sap, src, hp, _, _, _, _, _, _, _, _,
    hresp⟩ := calcAll_inv P request resp h
  subst hresp
  rfl

lemma calculate_planets_length (calcUt : ℚ → Nat → Nat → List ℚ) (jd : ℚ)
    (ids : List (String × Nat)) (fl : Nat) (ps : List (String × PlanetData))
    (h : calculate_planets calcUt jd ids fl = some ps) :
    ps.length = ids.length := by
  unfold calculate_planets at h
  exact optionTraverse_length _ _ _ h

/-- C10: every successful request's aspect mapping has exactly the 16
keys N-N, N-T, N-P, N-SA, N-SR, T-T, T-P, T-SA, T-SR, P-P, P-SA, P-SR,
SA-SA, SA-SR, SR-SR, H-H, in the order induced by the chart build
order natal, transit, progressed, solarArc, solarReturn, heliocentric,
independent of the input values. -/
theorem c10_aspect_keys (P : Providers) (request : HoroscopeRequest)
    (resp : HoroscopeResponse)
    (h : calculate_all_charts P request = some resp) :
    resp.aspects.map Prod.fst = EXPECTED_KEYS ∧ resp.aspects.length = 16 := by
  have hk := aspects_keys_eq P request resp h
  refine ⟨hk, ?_⟩
  have hl := congrArg List.length hk
  simpa [EXPECTED_KEYS] using hl

/-- C6: the aspect mapping never pairs the heliocentric chart with a
geocentric one — for every geocentric code `g`, neither `g-H` nor
`H-g` is a key; `H-H` is present; and every unordered pair of the five
geocentric codes (self-pairs included) is present under one of its two
orientations. -/
theorem c6_helio_exclusion (P : Providers) (request : HoroscopeRequest)
    (resp : HoroscopeResponse)
    (h : calculate_all_charts P request = some resp) :
    (∀ g ∈ ["N", "P", "T", "SA", "SR"],
      (g ++ "-H") ∉ resp.aspects.map Prod.fst ∧
      ("H-" ++ g) ∉ resp.aspects.map Prod.fst) ∧
    "H-H" ∈ resp.aspects.map Prod.fst ∧
    (∀ g1 ∈ ["N", "P", "T", "SA", "SR"], ∀ g2 ∈ ["N", "P", "T", "SA", "SR"],
      (g1 ++ "-" ++ g2) ∈ resp.aspects.map Prod.fst ∨
      (g2 ++ "-" ++ g1) ∈ resp.aspects.map Prod.fst) := by
  rw [aspects_keys_eq P request resp h]
  decide

/-- C1 (amended): the charts are built in the order natal, transit,
progressed, solarArc, solarReturn, heliocentric, and each included
pair `(i, j)` with `i ≤ j` over that order is keyed
`"<codeI>-<codeJ>"`; in particular the progressed/transit pair is
keyed `"T-P"`, with the transit chart's code first, holding the
aspects between the transit and progressed charts, and `"P-T"` is not
a key. -/
theorem c1_pair_keys (P : Providers) (request : HoroscopeRequest)
    (resp : HoroscopeResponse)
    (h : calculate_all_charts P request = some resp) :
    resp.aspects.map Prod.fst = EXPECTED_KEYS ∧
    resp.aspects.lookup "T-P" =
      some (calculate_aspects false resp.transit resp.progressed) ∧
    resp.aspects.lookup "P-T" = none := by
  obtain ⟨np0, tp, pp, psun, nsun, sap, src, hp, _, _, _, _, _, _, _, _,
    hresp⟩ := calcAll_inv P request resp h
  subst hresp
  exact ⟨rfl, rfl, rfl⟩

/-- C5: when the solar-return locator reports a nonzero return code,
the response still exists (the failure does not abort the request),
its solar-return chart has an empty planet mapping and empty houses,
and the other five charts are fully populated (13 geocentric planets,
10 heliocentric planets, natal and solar-arc houses present). -/
theorem c5_solar_return_failure (P : Providers) (request : HoroscopeRequest)
    (resp : HoroscopeResponse)
    (h : calculate_all_charts P request = some resp)
    (hfail :
      (P.solretUt (jd_natal P request) request.events.solarReturn.year).1 ≠ 0) :
    resp.solarReturn.planets = [] ∧ resp.solarReturn.houses = some [] ∧
    resp.natal.planets.length = 13 ∧ resp.natal.houses.isSome = true ∧
    resp.transit.planets.length = 13 ∧
    resp.progressed.planets.length = 13 ∧
    resp.solarArc.planets.length = 13 ∧ resp.solarArc.houses.isSome = true ∧
    resp.heliocentric.planets.length = 10 := by
  obtain ⟨np0, tp, pp, psun, nsun, sap, src, hp, hnp0, htp, hpp, hpsun, hnsun,
    hsap, hsrc, hhp, hresp⟩ := calcAll_inv P request resp h
  have hsrc' : src = ChartData.mk [] (some []) := by
    rw [solarReturnChart_fail P request hfail] at hsrc
    exact (Option.some_inj.mp hsrc).symm
  subst hresp
  subst hsrc'
  have l0 : np0.length = 13 := calculate_planets_length _ _ _ _ _ hnp0
  have lt' : tp.length = 13 := calculate_planets_length _ _ _ _ _ htp
  have lp : pp.length = 13 := calculate_planets_length _ _ _ _ _ hpp
  have lh : hp.length = 10 := calculate_planets_length _ _ _ _ _ hhp
  have lsa : sap.length = 13 := by
    have := optionTraverse_length _ _ _ hsap
    simpa [assign_houses_to_planets, l0] using this
  refine ⟨rfl, rfl, ?_, rfl, lt', lp, lsa, rfl, lh⟩
  simpa [assign_houses_to_planets] using l0

/-- C3: the solar arc is the progressed-Sun minus natal-Sun longitude
folded into `[0, 360)` by the Python modulo; every natal planet maps
index-by-index to a solar-arc planet with the same name, position
advanced by the arc modulo 360, house and retrograde flag unchanged,
and sign/degree recomputed from the new longitude; the solar-arc chart
carries the natal cusps unchanged. -/
theorem c3_solar_arc (P : Providers) (request : HoroscopeRequest)
    (resp : HoroscopeResponse)
    (h : calculate_all_charts P request = some resp) :
    ∃ progSun natalSun,
      resp.progressed.planets.lookup "Sun" = some progSun ∧
      resp.natal.planets.lookup "Sun" = some natalSun ∧
      0 ≤ pymod (progSun.position - natalSun.position) 360 ∧
      pymod (progSun.position - natalSun.position) 360 < 360 ∧
      resp.solarArc.houses = resp.natal.houses ∧
      resp.solarArc.planets.length = resp.natal.planets.length ∧
      ∀ i n p, resp.natal.planets.get? i = some (n, p) →
        ∃ p', resp.solarArc.planets.get? i = some (n, p') ∧
          p'.position = pymod (p.position +
            pymod (progSun.position - natalSun.position) 360) 360 ∧
          p'.house = p.house ∧ p'.isRetro = p.isRetro ∧
          pyGet SIGNS (truncToInt (p'.position / 30)) = some p'.sign ∧
          p'.degree = pymod p'.position 30 := by
  obtain ⟨np0, tp, pp, psun, nsun, sap, src, hp, hnp0, htp, hpp, hpsun, hnsun,
    hsap, hsrc, hhp, hresp⟩ := calcAll_inv P request resp h
  subst hresp
  refine ⟨psun, nsun, hpsun, hnsun, pymod_nonneg _ _ (by norm_num),
    pymod_lt _ _ (by norm_num), rfl, optionTraverse_length _ _ _ hsap, ?_⟩
  intro i n p hget
  obtain ⟨b, hb, hfb⟩ := optionTraverse_get? _ _ _ hsap i (n, p) hget
  simp only [Option.bind_eq_bind, Option.bind_eq_some, Option.pure_def,
    Option.some_inj] at hfb
  obtain ⟨s, hsgn, hmk⟩ := hfb
  subst hmk
  exact ⟨_, hb, rfl, rfl, rfl, hsgn, rfl⟩

-- N. concrete providers and witnesses for the orchestrator claims

/-- A concrete provider assignment: all bodies at longitude 0 with
zero speed, equally spaced Placidus cusps, and a succeeding
solar-return locator. -/
def P0 : Providers :=
  { geocode := fun _ => (0, 0),
    utcToJd := fun _ _ => 2451545,
    calcUt := fun _ _ _ => [0, 0, 0, 0, 0, 0],
    houses := fun _ _ _ => (cusps0, 0),
    solretUt := fun _ _ => (0, 2451545, "") }

/-- A concrete request. -/
def req0 : HoroscopeRequest :=
  { natal := { date := ⟨1990, 5, 15⟩, time := ⟨12, 30, 0⟩,
               location := "Tokyo" },
    events := { progressed := ⟨⟨2024, 5, 15⟩⟩, transit := ⟨⟨2024, 5, 15⟩⟩,
                solarArc := ⟨⟨2024, 5, 15⟩⟩,
                solarReturn := { year := 2024, location := "Tokyo" },
                heliocentric := ⟨⟨2024, 5, 15⟩⟩ } }

lemma respW_some : (calculate_all_charts P0 req0).isSome = true := by decide

/-- The response of `calculate_all_charts` on `P0`/`req0`. -/
def respW : HoroscopeResponse := (calculate_all_charts P0 req0).get respW_some

lemma respW_eq : calculate_all_charts P0 req0 = some respW :=
  (Option.some_get respW_some).symm

theorem c10_aspect_keys_witness :
    calculate_all_charts P0 req0 = some respW ∧
    (respW.aspects.map Prod.fst = EXPECTED_KEYS ∧ respW.aspects.length = 16) :=
  ⟨respW_eq, c10_aspect_keys P0 req0 respW respW_eq⟩

theorem c6_helio_exclusion_witness :
    calculate_all_charts P0 req0 = some respW ∧
    ((∀ g ∈ ["N", "P", "T", "SA", "SR"],
      (g ++ "-H") ∉ respW.aspects.map Prod.fst ∧
      ("H-" ++ g) ∉ respW.aspects.map Prod.fst) ∧
    "H-H" ∈ respW.aspects.map Prod.fst ∧
    (∀ g1 ∈ ["N", "P", "T", "SA", "SR"], ∀ g2 ∈ ["N", "P", "T", "SA", "SR"],
      (g1 ++ "-" ++ g2) ∈ respW.aspects.map Prod.fst ∨
      (g2 ++ "-" ++ g1) ∈ respW.aspects.map Prod.fst)) :=
  ⟨respW_eq, c6_helio_exclusion P0 req0 respW respW_eq⟩

theorem c1_pair_keys_witness :
    calculate_all_charts P0 req0 = some respW ∧
    (respW.aspects.map Prod.fst = EXPECTED_KEYS ∧
    respW.aspects.lookup "T-P" =
      some (calculate_aspects false respW.transit respW.progressed) ∧
    respW.aspects.lookup "P-T" = none) :=
  ⟨respW_eq, c1_pair_keys P0 req0 respW respW_eq⟩

/-- C1 counterexample: on the concrete inputs `P0`/`req0` the request
completes, yet the aspect mapping has no key `"P-T"` — the
progressed/transit pair is keyed `"T-P"` instead, because the build
order is natal, transit, progressed, … rather than natal, progressed,
transit, …. -/
theorem c1_pair_keys_counterexample :
    (calculate_all_charts P0 req0).map
      (fun r => (r.aspects.map Prod.fst).contains "P-T") = some false ∧
    (calculate_all_charts P0 req0).map
      (fun r => (r.aspects.map Prod.fst).contains "T-P") = some true := by
  decide

theorem c3_solar_arc_witness :
    calculate_all_charts P0 req0 = some respW ∧
    (∃ progSun natalSun,
      respW.progressed.planets.lookup "Sun" = some progSun ∧
      respW.natal.planets.lookup "Sun" = some natalSun ∧
      0 ≤ pymod (progSun.position - natalSun.position) 360 ∧
      pymod (progSun.position - natalSun.position) 360 < 360 ∧
      respW.solarArc.houses = respW.natal.houses ∧
      respW.solarArc.planets.length = respW.natal.planets.length ∧
      ∀ i n p, respW.natal.planets.get? i = some (n, p) →
        ∃ p', respW.solarArc.planets.get? i = some (n, p') ∧
          p'.position = pymod (p.position +
            pymod (progSun.position - natalSun.position) 360) 360 ∧
          p'.house = p.house ∧ p'.isRetro = p.isRetro ∧
          pyGet SIGNS (truncToInt (p'.position / 30)) = some p'.sign ∧
          p'.degree = pymod p'.position 30) :=
  ⟨respW_eq, c3_solar_arc P0 req0 respW respW_eq⟩

/-- Providers identical to `P0` except that the solar-return locator
fails with return code -1. -/
def P5 : Providers :=
  { geocode := fun _ => (0, 0),
    utcToJd := fun _ _ => 2451545,
    calcUt := fun _ _ _ => [0, 0, 0, 0, 0, 0],
    houses := fun _ _ _ => (cusps0, 0),
    solretUt := fun _ _ => (-1, 0, "solar return solve failed") }

lemma respW5_some : (calculate_all_charts P5 req0).isSome = true := by decide

/-- The response of `calculate_all_charts` on the failing-locator
providers. -/
def respW5 : HoroscopeResponse := (calculate_all_charts P5 req0).get respW5_some

lemma respW5_eq : calculate_all_charts P5 req0 = some respW5 :=
  (Option.some_get respW5_some).symm

theorem c5_solar_return_failure_witness :
    (calculate_all_charts P5 req0 = some respW5 ∧
      (P5.solretUt (jd_natal P5 req0) req0.events.solarReturn.year).1 ≠ 0) ∧
    (respW5.solarReturn.planets = [] ∧ respW5.solarReturn.houses = some [] ∧
    respW5.natal.planets.length = 13 ∧ respW5.natal.houses.isSome = true ∧
    respW5.transit.planets.length = 13 ∧
    respW5.progressed.planets.length = 13 ∧
    respW5.solarArc.planets.length = 13 ∧
    respW5.solarArc.houses.isSome = true ∧
    respW5.heliocentric.planets.length = 10) :=
  ⟨⟨respW5_eq, by decide⟩,
    c5_solar_return_failure P5 req0 respW5 respW5_eq (by decide)⟩
